import Mathlib

/-!
Verification of the MCP (Model Context Protocol) C++ library
(pooriayousefi/cpp-sdk): a shallow embedding in Lean 4 of the
protocol data model (src/include/mcp/protocol.hpp), the server method
handlers (src/include/mcp/server.hpp), the streaming adapter
(src/include/mcp/server_streaming.hpp), the client result parsing
(src/include/mcp/client.hpp, client_async.hpp) and the two reference
transports (src/include/mcp/transport/transport.hpp).

The JSON values of the C++ code (nlohmann::json) are modelled by the
inductive `Json` below; numbers are modelled as integers, which covers
every number the embedded code paths produce or inspect.  Objects are
association lists in insertion order; all the code under study accesses
objects through key lookup, never through iteration order, so the
ordering convention is irrelevant to the theorems.

The jsonrpc layer (jsonrpc/jsonrpc.hpp: message builders, dispatcher
outcome translation, rpc errors) is part of this repository but is not
under src/; only its test suite (src/tests/test_jsonrpc.cpp) and its
callers are.  Those pieces are modelled from the specification and are
marked with doc comments starting with the words Modelled from the spec.
-/

namespace MCP

/-- JSON value model: null, booleans, integer numbers, strings, arrays
and objects as association lists in insertion order. -/
inductive Json where
  | null : Json
  | bool (b : Bool) : Json
  | num (n : Int) : Json
  | str (s : String) : Json
  | arr (xs : List Json) : Json
  | obj (kvs : List (String × Json)) : Json

/-- Key lookup in an association list, first binding wins (matches
nlohmann object access by key). -/
def jlookupList : List (String × Json) → String → Option Json
  | [], _ => none
  | (k, v) :: rest, key => if k = key then some v else jlookupList rest key

/-- Key lookup on a JSON value: some value for an object holding the key,
none otherwise (models j.contains and j[key] access). -/
def jlookup : Json → String → Option Json
  | Json.obj kvs, key => jlookupList kvs key
  | _, _ => none

/-- Update or append a key in an association list (models j[key] = v). -/
def setkList : List (String × Json) → String → Json → List (String × Json)
  | [], key, v => [(key, v)]
  | (k, w) :: rest, key, v =>
      if k = key then (k, v) :: rest else (k, w) :: setkList rest key v

/-- Update or append a key of a JSON object (models j[key] = v;
on a non-object the C++ code never performs this write). -/
def setk : Json → String → Json → Json
  | Json.obj kvs, key, v => Json.obj (setkList kvs key v)
  | j, _, _ => j

/-- String extraction, failing on a non-string (models get of a string
from nlohmann json, which throws on a type mismatch). -/
def jGetStr : Json → Except String String
  | Json.str s => Except.ok s
  | _ => Except.error ("type must be string")

/-- Boolean extraction, failing on a non-boolean. -/
def jGetBool : Json → Except String Bool
  | Json.bool b => Except.ok b
  | _ => Except.error ("type must be boolean")

/-- Whether a JSON value is an object. -/
def isObj : Json → Bool
  | Json.obj _ => true
  | _ => false

/-- Models j.value(key, default) at string type: value() throws
type_error.306 when the container is not an object; on an object it
returns the default when the key is absent and otherwise extracts the
string, failing on a type mismatch. -/
def jValueStr (j : Json) (key d : String) : Except String String :=
  if isObj j then
    match jlookup j key with
    | none => Except.ok d
    | some v => jGetStr v
  else Except.error ("type_error.306: cannot use value() with a non-object")

/-- Models j.value(key, default) at boolean type: type_error.306 on a
non-object container, otherwise default-or-extract. -/
def jValueBool (j : Json) (key : String) (d : Bool) : Except String Bool :=
  if isObj j then
    match jlookup j key with
    | none => Except.ok d
    | some v => jGetBool v
  else Except.error ("type_error.306: cannot use value() with a non-object")

/-- Models j.value(key, default) at json type: type_error.306 on a
non-object container; on an object the stored value as is when present
(no conversion, so no further failure), the default otherwise. -/
def jValueJson (j : Json) (key : String) (d : Json) : Except String Json :=
  if isObj j then
    match jlookup j key with
    | none => Except.ok d
    | some v => Except.ok v
  else Except.error ("type_error.306: cannot use value() with a non-object")

/-- Models the optional-string read pattern of the source:
j.contains(key) ? optional(j[key]) : nullopt, failing when the stored
value is present but not a string. -/
def jOptStr (j : Json) (key : String) : Except String (Option String) :=
  match jlookup j key with
  | none => Except.ok none
  | some v =>
      match jGetStr v with
      | Except.ok s => Except.ok (some s)
      | Except.error e => Except.error e

/-! ## Protocol data model (src/include/mcp/protocol.hpp) -/

/-- Implementation information: protocol.hpp struct Implementation. -/
structure Implementation where
  name : String
  version : String
  deriving DecidableEq

def Implementation.to_json (i : Implementation) : Json :=
  Json.obj [(("name"), Json.str i.name), (("version"), Json.str i.version)]

def Implementation.from_json (j : Json) : Except String Implementation :=
  match jValueStr j ("name") (""), jValueStr j ("version") ("") with
  | Except.ok n, Except.ok v => Except.ok ⟨n, v⟩
  | Except.error e, _ => Except.error e
  | _, Except.error e => Except.error e

/-- Tool input schema: protocol.hpp struct ToolInputSchema. -/
structure ToolInputSchema where
  type : String
  properties : Json
  required : List String

def ToolInputSchema.to_json (s : ToolInputSchema) : Json :=
  Json.obj
    ([(("type"), Json.str s.type)]
      ++ (match s.properties with
          | Json.null => []
          | p => [(("properties"), p)])
      ++ (if s.required = [] then []
          else [(("required"), Json.arr (s.required.map Json.str))]))

/-- Extraction of the required array elements, failing on a non-string
element (models the get of each element in ToolInputSchema::from_json). -/
def strListFromJson : List Json → Except String (List String)
  | [] => Except.ok []
  | x :: xs =>
      match jGetStr x, strListFromJson xs with
      | Except.ok s, Except.ok rest => Except.ok (s :: rest)
      | Except.error e, _ => Except.error e
      | _, Except.error e => Except.error e

def ToolInputSchema.from_json (j : Json) : Except String ToolInputSchema :=
  match jValueStr j ("type") ("object") with
  | Except.error e => Except.error e
  | Except.ok ty =>
      match jValueJson j ("properties") (Json.obj []) with
      | Except.error e => Except.error e
      | Except.ok props =>
          match jlookup j ("required") with
          | some (Json.arr xs) =>
              match strListFromJson xs with
              | Except.ok req => Except.ok ⟨ty, props, req⟩
              | Except.error e => Except.error e
          | _ => Except.ok ⟨ty, props, []⟩

/-- Tool definition: protocol.hpp struct Tool. -/
structure Tool where
  name : String
  description : Option String
  input_schema : ToolInputSchema

def Tool.to_json (t : Tool) : Json :=
  Json.obj
    ([(("name"), Json.str t.name),
      (("inputSchema"), t.input_schema.to_json)]
      ++ (match t.description with
          | none => []
          | some d => [(("description"), Json.str d)]))

def Tool.from_json (j : Json) : Except String Tool :=
  match jValueStr j ("name") (""), jOptStr j ("description") with
  | Except.ok n, Except.ok d =>
      match jValueJson j ("inputSchema") (Json.obj []) with
      | Except.error e => Except.error e
      | Except.ok sj =>
          match ToolInputSchema.from_json sj with
          | Except.ok s => Except.ok ⟨n, d, s⟩
          | Except.error e => Except.error e
  | Except.error e, _ => Except.error e
  | _, Except.error e => Except.error e

/-- Tool result content block: protocol.hpp struct ToolResultContent. -/
structure ToolResultContent where
  type : String
  text : Option String
  data : Option String
  mime_type : Option String
  uri : Option String
  deriving DecidableEq

def ToolResultContent.to_json (c : ToolResultContent) : Json :=
  Json.obj
    ([(("type"), Json.str c.type)]
      ++ (match c.text with | none => [] | some t => [(("text"), Json.str t)])
      ++ (match c.data with | none => [] | some d => [(("data"), Json.str d)])
      ++ (match c.mime_type with | none => [] | some m => [(("mimeType"), Json.str m)])
      ++ (match c.uri with | none => [] | some u => [(("uri"), Json.str u)]))

/-- ToolResultContent::text_content helper of the source. -/
def ToolResultContent.text_content (t : String) : ToolResultContent :=
  ⟨("text"), some t, none, none, none⟩

/-- Prompt argument: protocol.hpp struct PromptArgument. -/
structure PromptArgument where
  name : String
  description : Option String
  required : Bool
  deriving DecidableEq

def PromptArgument.to_json (a : PromptArgument) : Json :=
  Json.obj
    ([(("name"), Json.str a.name), (("required"), Json.bool a.required)]
      ++ (match a.description with
          | none => []
          | some d => [(("description"), Json.str d)]))

def PromptArgument.from_json (j : Json) : Except String PromptArgument :=
  match jValueStr j ("name") (""), jOptStr j ("description"),
        jValueBool j ("required") false with
  | Except.ok n, Except.ok d, Except.ok r => Except.ok ⟨n, d, r⟩
  | Except.error e, _, _ => Except.error e
  | _, Except.error e, _ => Except.error e
  | _, _, Except.error e => Except.error e

/-- Prompt definition: protocol.hpp struct Prompt. -/
structure Prompt where
  name : String
  description : Option String
  arguments : List PromptArgument
  deriving DecidableEq

def Prompt.to_json (p : Prompt) : Json :=
  Json.obj
    ([(("name"), Json.str p.name)]
      ++ (match p.description with
          | none => []
          | some d => [(("description"), Json.str d)])
      ++ (if p.arguments = [] then []
          else [(("arguments"), Json.arr (p.arguments.map PromptArgument.to_json))]))

/-- Extraction of a prompt argument array (the loop in Prompt::from_json). -/
def promptArgsFromJson : List Json → Except String (List PromptArgument)
  | [] => Except.ok []
  | x :: xs =>
      match PromptArgument.from_json x, promptArgsFromJson xs with
      | Except.ok a, Except.ok rest => Except.ok (a :: rest)
      | Except.error e, _ => Except.error e
      | _, Except.error e => Except.error e

def Prompt.from_json (j : Json) : Except String Prompt :=
  match jValueStr j ("name") (""), jOptStr j ("description") with
  | Except.ok n, Except.ok d =>
      match jlookup j ("arguments") with
      | some (Json.arr xs) =>
          match promptArgsFromJson xs with
          | Except.ok args => Except.ok ⟨n, d, args⟩
          | Except.error e => Except.error e
      | _ => Except.ok ⟨n, d, []⟩
  | Except.error e, _ => Except.error e
  | _, Except.error e => Except.error e

/-- Message role: protocol.hpp enum MessageRole. -/
inductive MessageRole where
  | user : MessageRole
  | assistant : MessageRole
  deriving DecidableEq

/-- message_role_to_string of the source. -/
def message_role_to_string : MessageRole → String
  | MessageRole.user => ("user")
  | MessageRole.assistant => ("assistant")

/-- Message content block: protocol.hpp struct MessageContent. -/
structure MessageContent where
  type : String
  text : Option String
  data : Option String
  mime_type : Option String
  deriving DecidableEq

def MessageContent.to_json (c : MessageContent) : Json :=
  Json.obj
    ([(("type"), Json.str c.type)]
      ++ (match c.text with | none => [] | some t => [(("text"), Json.str t)])
      ++ (match c.data with | none => [] | some d => [(("data"), Json.str d)])
      ++ (match c.mime_type with | none => [] | some m => [(("mimeType"), Json.str m)]))

/-- Prompt message: protocol.hpp struct PromptMessage.  The content
member is a vector of blocks and to_json emits it as a JSON array. -/
structure PromptMessage where
  role : MessageRole
  content : List MessageContent
  deriving DecidableEq

def PromptMessage.to_json (m : PromptMessage) : Json :=
  Json.obj
    [(("role"), Json.str (message_role_to_string m.role)),
     (("content"), Json.arr (m.content.map MessageContent.to_json))]

/-- Resource content: protocol.hpp struct ResourceContent. -/
structure ResourceContent where
  uri : String
  mime_type : Option String
  text : Option String
  blob : Option String
  deriving DecidableEq

def ResourceContent.to_json (c : ResourceContent) : Json :=
  Json.obj
    ([(("uri"), Json.str c.uri)]
      ++ (match c.mime_type with | none => [] | some m => [(("mimeType"), Json.str m)])
      ++ (match c.text with | none => [] | some t => [(("text"), Json.str t)])
      ++ (match c.blob with | none => [] | some b => [(("blob"), Json.str b)]))

/-- Resource definition: protocol.hpp struct Resource. -/
structure Resource where
  uri : String
  name : String
  description : Option String
  mime_type : Option String
  deriving DecidableEq

def Resource.to_json (r : Resource) : Json :=
  Json.obj
    ([(("uri"), Json.str r.uri), (("name"), Json.str r.name)]
      ++ (match r.description with
          | none => [] | some d => [(("description"), Json.str d)])
      ++ (match r.mime_type with
          | none => [] | some m => [(("mimeType"), Json.str m)]))

def Resource.from_json (j : Json) : Except String Resource :=
  match jValueStr j ("uri") (""), jValueStr j ("name") ("") with
  | Except.ok u, Except.ok n =>
      match jOptStr j ("description"), jOptStr j ("mimeType") with
      | Except.ok d, Except.ok m => Except.ok ⟨u, n, d, m⟩
      | Except.error e, _ => Except.error e
      | _, Except.error e => Except.error e
  | Except.error e, _ => Except.error e
  | _, Except.error e => Except.error e

/-- Server capabilities: protocol.hpp struct ServerCapabilities. -/
structure ServerCapabilities where
  prompts : Option Json
  resources : Option Json
  tools : Option Json
  logging : Option Json

def ServerCapabilities.to_json (c : ServerCapabilities) : Json :=
  Json.obj
    ((match c.prompts with | none => [] | some p => [(("prompts"), p)])
      ++ (match c.resources with | none => [] | some r => [(("resources"), r)])
      ++ (match c.tools with | none => [] | some t => [(("tools"), t)])
      ++ (match c.logging with | none => [] | some l => [(("logging"), l)]))

/-- Server info: protocol.hpp struct ServerInfo. -/
structure ServerInfo where
  server_info : Implementation
  protocol_version : String
  capabilities : Json
  instructions : Option String

def ServerInfo.to_json (s : ServerInfo) : Json :=
  Json.obj
    ([(("protocolVersion"), Json.str s.protocol_version),
      (("capabilities"), s.capabilities),
      (("serverInfo"), s.server_info.to_json)]
      ++ (match s.instructions with
          | none => [] | some i => [(("instructions"), Json.str i)]))

def ServerInfo.from_json (j : Json) : Except String ServerInfo :=
  match jValueJson j ("serverInfo") (Json.obj []) with
  | Except.error e => Except.error e
  | Except.ok sij =>
      match Implementation.from_json sij, jValueStr j ("protocolVersion") (""),
            jValueJson j ("capabilities") (Json.obj []),
            jOptStr j ("instructions") with
      | Except.ok impl, Except.ok pv, Except.ok caps, Except.ok instr =>
          Except.ok ⟨impl, pv, caps, instr⟩
      | Except.error e, _, _, _ => Except.error e
      | _, Except.error e, _, _ => Except.error e
      | _, _, Except.error e, _ => Except.error e
      | _, _, _, Except.error e => Except.error e

/-- Protocol version literal MCP_PROTOCOL_VERSION of protocol.hpp. -/
def MCP_PROTOCOL_VERSION : String := ("2024-11-05")

/-! ## The jsonrpc layer

The header jsonrpc/jsonrpc.hpp is part of this repository but is not
under src/; only its tests and callers are.  The pieces below are
modelled from the specification (error-code table, message builders,
dispatcher outcome translation) and pinned by src/tests/test_jsonrpc.cpp. -/

/-- Modelled from the spec: jsonrpc error value {code, message, data}
from the missing jsonrpc/jsonrpc.hpp (struct error). -/
structure RpcError where
  code : Int
  message : String
  data : Json

/-- Modelled from the spec: make_result of the missing jsonrpc.hpp
builds a success response {jsonrpc, id, result} (shape pinned by
test_jsonrpc.cpp). -/
def make_result (id : Json) (v : Json) : Json :=
  Json.obj [(("jsonrpc"), Json.str ("2.0")), (("id"), id), (("result"), v)]

/-- Modelled from the spec: make_error of the missing jsonrpc.hpp builds
an error response {jsonrpc, id, error: {code, message, data?}}, the data
member present only when not null (the spec calls data optional). -/
def make_error (id : Json) (e : RpcError) : Json :=
  Json.obj
    [(("jsonrpc"), Json.str ("2.0")), (("id"), id),
     (("error"),
      Json.obj
        ([(("code"), Json.num e.code), (("message"), Json.str e.message)]
          ++ (match e.data with
              | Json.null => []
              | d => [(("data"), d)])))]

/-- Outcome of one handler execution: a returned value, a thrown
rpc_exception carrying a declared protocol error, or any other thrown
failure carrying its description (what catch of std exception sees). -/
inductive Outcome (α : Type) where
  | ok (v : α) : Outcome α
  | rpcErr (e : RpcError) : Outcome α
  | exn (msg : String) : Outcome α

/-- Modelled from the spec: the dispatcher of the missing jsonrpc.hpp
translates a handler outcome into exactly one response: a returned value
becomes make_result, a declared protocol error passes through to
make_error with its own code, and any other failure becomes a -32603
internal error holding the failure description (spec 4.5 step 4; pinned
by the dispatcher error-handling tests in test_jsonrpc.cpp). -/
def dispatchOutcome (id : Json) : Outcome Json → Json
  | Outcome.ok v => make_result id v
  | Outcome.rpcErr e => make_error id e
  | Outcome.exn m => make_error id ⟨-32603, ("Internal error: ") ++ m, Json.null⟩

/-- Error code of a response, when the response is an error response. -/
def errorCode (resp : Json) : Option Int :=
  match jlookup resp ("error") with
  | some e =>
      match jlookup e ("code") with
      | some (Json.num c) => some c
      | _ => none
  | none => none

/-- Whether a response is a success response (carries a result member). -/
def isResult (resp : Json) : Bool :=
  (jlookup resp ("result")).isSome

/-! ## The server (src/include/mcp/server.hpp)

The Server class owns the registries and installs the seven MCP method
handlers on the endpoint.  Its mutable fields become the state record
below; each installed handler becomes a function from state and request
params to an outcome (and, for initialize, a new state).  User-supplied
handlers are modelled as functions returning an `Outcome`, so that a
handler that throws is representable. -/

/-- A registered tool handler: arguments to outcome
(vector of content blocks, or a thrown failure). -/
def ToolHandler : Type := Json → Outcome (List ToolResultContent)

/-- A registered prompt handler: string-valued argument map to outcome. -/
def PromptHandler : Type := List (String × String) → Outcome (List PromptMessage)

/-- A registered resource reader: uri to outcome. -/
def ResourceReader : Type := String → Outcome (List ResourceContent)

/-- Mutable server state: the fields of class Server (server.hpp).
Registries are keyed lookup functions, matching the unordered maps of
the source; the definition lists back tools/list style listings. -/
structure ServerState where
  initialized : Bool
  client_capabilities : Json
  server_info : Implementation
  instructions : Option String
  capabilities : ServerCapabilities
  tools : List Tool
  tool_handlers : String → Option ToolHandler
  prompts : List Prompt
  prompt_handlers : String → Option PromptHandler
  resources : List Resource
  resource_readers : String → Option ResourceReader

/-- The initialize handler installed by Server::register_protocol_methods
(server.hpp lines 213 to 236): refuse a second call with -32600, store
the peer capabilities when present, mark initialized, and answer with
the ServerInfo JSON carrying the implementation, the protocol version
literal and the advertised capabilities. -/
def initializeHandler (st : ServerState) (params : Json) :
    ServerState × Outcome Json :=
  if st.initialized then
    (st, Outcome.rpcErr ⟨-32600, ("Already initialized"), Json.null⟩)
  else
    let st1 :=
      match jlookup params ("capabilities") with
      | some c => { st with client_capabilities := c }
      | none => st
    let st2 := { st1 with initialized := true }
    let info : ServerInfo :=
      ⟨st.server_info, MCP_PROTOCOL_VERSION, st.capabilities.to_json,
        st.instructions⟩
    (st2, Outcome.ok info.to_json)

/-- The tools/list handler (server.hpp lines 239 to 252). -/
def toolsListHandler (st : ServerState) : Outcome Json :=
  if !st.initialized then
    Outcome.rpcErr ⟨-32600, ("Not initialized"), Json.null⟩
  else
    Outcome.ok (Json.obj [(("tools"), Json.arr (st.tools.map Tool.to_json))])

/-- The tools/call handler (server.hpp lines 255 to 292): gate, name
lookup, handler invocation with the arguments member defaulting to the
empty object, content aggregation, and translation of a non-protocol
handler failure into -32603.  A thrown rpc_exception passes through the
catch clause untranslated: the class rpc_exception lives in the missing
jsonrpc.hpp and is modelled from the spec, which requires a thrown
protocol error to be re-raised and never double-wrapped. -/
def toolsCallHandler (st : ServerState) (params : Json) : Outcome Json :=
  if !st.initialized then
    Outcome.rpcErr ⟨-32600, ("Not initialized"), Json.null⟩
  else
    match jValueStr params ("name") ("") with
    | Except.error e => Outcome.exn e
    | Except.ok tool_name =>
        if tool_name = ("") then
          Outcome.rpcErr ⟨-32602, ("Missing tool name"), Json.null⟩
        else
          match st.tool_handlers tool_name with
          | none =>
              Outcome.rpcErr
                ⟨-32601, ("Tool not found: ") ++ tool_name, Json.null⟩
          | some handler =>
              match jValueJson params ("arguments") (Json.obj []) with
              | Except.error e => Outcome.exn e
              | Except.ok arguments =>
              match handler arguments with
              | Outcome.ok result =>
                  Outcome.ok
                    (Json.obj
                      [(("content"),
                        Json.arr (result.map ToolResultContent.to_json))])
              | Outcome.rpcErr e => Outcome.rpcErr e
              | Outcome.exn m =>
                  Outcome.rpcErr
                    ⟨-32603, ("Tool execution failed: ") ++ m, Json.null⟩

/-- The prompts/list handler (server.hpp lines 295 to 308). -/
def promptsListHandler (st : ServerState) : Outcome Json :=
  if !st.initialized then
    Outcome.rpcErr ⟨-32600, ("Not initialized"), Json.null⟩
  else
    Outcome.ok
      (Json.obj [(("prompts"), Json.arr (st.prompts.map Prompt.to_json))])

/-- The string-valued argument extraction of the prompts/get handler:
keep only members whose value is a string. -/
def stringArgs : List (String × Json) → List (String × String)
  | [] => []
  | (k, Json.str s) :: rest => (k, s) :: stringArgs rest
  | _ :: rest => stringArgs rest

/-- The prompts/get handler (server.hpp lines 311 to 356). -/
def promptsGetHandler (st : ServerState) (params : Json) : Outcome Json :=
  if !st.initialized then
    Outcome.rpcErr ⟨-32600, ("Not initialized"), Json.null⟩
  else
    match jValueStr params ("name") ("") with
    | Except.error e => Outcome.exn e
    | Except.ok prompt_name =>
        if prompt_name = ("") then
          Outcome.rpcErr ⟨-32602, ("Missing prompt name"), Json.null⟩
        else
          match st.prompt_handlers prompt_name with
          | none =>
              Outcome.rpcErr
                ⟨-32601, ("Prompt not found: ") ++ prompt_name, Json.null⟩
          | some handler =>
              let arguments :=
                match jlookup params ("arguments") with
                | some (Json.obj kvs) => stringArgs kvs
                | _ => []
              match handler arguments with
              | Outcome.ok messages =>
                  Outcome.ok
                    (Json.obj
                      [(("messages"),
                        Json.arr (messages.map PromptMessage.to_json))])
              | Outcome.rpcErr e => Outcome.rpcErr e
              | Outcome.exn m =>
                  Outcome.rpcErr
                    ⟨-32603, ("Prompt generation failed: ") ++ m, Json.null⟩

/-- The resources/list handler (server.hpp lines 359 to 372). -/
def resourcesListHandler (st : ServerState) : Outcome Json :=
  if !st.initialized then
    Outcome.rpcErr ⟨-32600, ("Not initialized"), Json.null⟩
  else
    Outcome.ok
      (Json.obj
        [(("resources"), Json.arr (st.resources.map Resource.to_json))])

/-- The resources/read handler (server.hpp lines 375 to 410). -/
def resourcesReadHandler (st : ServerState) (params : Json) : Outcome Json :=
  if !st.initialized then
    Outcome.rpcErr ⟨-32600, ("Not initialized"), Json.null⟩
  else
    match jValueStr params ("uri") ("") with
    | Except.error e => Outcome.exn e
    | Except.ok uri =>
        if uri = ("") then
          Outcome.rpcErr ⟨-32602, ("Missing resource URI"), Json.null⟩
        else
          match st.resource_readers uri with
          | none =>
              Outcome.rpcErr
                ⟨-32601, ("Resource not found: ") ++ uri, Json.null⟩
          | some reader =>
              match reader uri with
              | Outcome.ok contents =>
                  Outcome.ok
                    (Json.obj
                      [(("contents"),
                        Json.arr (contents.map ResourceContent.to_json))])
              | Outcome.rpcErr e => Outcome.rpcErr e
              | Outcome.exn m =>
                  Outcome.rpcErr
                    ⟨-32603, ("Resource read failed: ") ++ m, Json.null⟩

/-- Method dispatch over the seven handlers Server registers on the
endpoint; none for a method the server never registered (the endpoint
then answers method-not-found, outside the server class). -/
def serverHandle (st : ServerState) (method : String) (params : Json) :
    Option (ServerState × Outcome Json) :=
  if method = ("initialize") then some (initializeHandler st params)
  else if method = ("tools/list") then some (st, toolsListHandler st)
  else if method = ("tools/call") then some (st, toolsCallHandler st params)
  else if method = ("prompts/list") then some (st, promptsListHandler st)
  else if method = ("prompts/get") then some (st, promptsGetHandler st params)
  else if method = ("resources/list") then some (st, resourcesListHandler st)
  else if method = ("resources/read") then
    some (st, resourcesReadHandler st params)
  else none

/-- One full inbound request against the server: handler execution
followed by the dispatcher translation of the outcome into the single
response (none when the method is not one the server registers). -/
def serverRespond (st : ServerState) (id : Json) (method : String)
    (params : Json) : Option (ServerState × Json) :=
  match serverHandle st method params with
  | none => none
  | some (st2, out) => some (st2, dispatchOutcome id out)

/-! ## The streaming adapter (src/include/mcp/server_streaming.hpp)

StreamingServer::register_streaming_tool wraps a generator-returning
handler into a plain tool handler: it iterates the generator, appends
each yielded block to a vector, reports progress, and after each block
checks jsonrpc::is_canceled; on cancellation it breaks out of the loop
and returns the blocks collected so far.  The generator is modelled by
the finite list of blocks it would yield; the ambient cancellation flag
(which lives in the missing jsonrpc.hpp request context and is set when
a cancel notification for the in-flight id is observed) is modelled by
a predicate on the number of blocks already collected, sampled exactly
where the loop samples it. -/

/-- The collection loop of register_streaming_tool (server_streaming.hpp
lines 79 to 103): push each yielded block, then stop when the
cancellation flag reads true.  The counter is the number of blocks
already collected when the flag is sampled. -/
def streamingCollect (canceled : Nat → Bool) :
    List ToolResultContent → Nat → List ToolResultContent
  | [], _ => []
  | x :: xs, n =>
      x :: (if canceled (n + 1) then [] else streamingCollect canceled xs (n + 1))

/-- The tool handler that register_streaming_tool installs, for a
generator yielding the given blocks under the given ambient
cancellation flag.  It always returns normally with the collected
blocks; it never throws. -/
def streamingToolHandler (gen : Json → List ToolResultContent)
    (canceled : Nat → Bool) : ToolHandler :=
  fun args => Outcome.ok (streamingCollect canceled (gen args) 0)

/-! ## The client (src/include/mcp/client.hpp, client_async.hpp) -/

/-- Result parsing of Client::call_tool (client.hpp lines 190 to 208):
each member of the content array keeps type (default text) and the
text, data and mimeType members when present. -/
def parseToolContent (c : Json) : Except String ToolResultContent :=
  match jValueStr c ("type") ("text") with
  | Except.error e => Except.error e
  | Except.ok ty =>
      match jOptStr c ("text"), jOptStr c ("data"), jOptStr c ("mimeType") with
      | Except.ok t, Except.ok d, Except.ok m => Except.ok ⟨ty, t, d, m, none⟩
      | Except.error e, _, _ => Except.error e
      | _, Except.error e, _ => Except.error e
      | _, _, Except.error e => Except.error e

/-- Sequencing of parseToolContent over the content array. -/
def parseToolContents : List Json → Except String (List ToolResultContent)
  | [] => Except.ok []
  | x :: xs =>
      match parseToolContent x, parseToolContents xs with
      | Except.ok c, Except.ok rest => Except.ok (c :: rest)
      | Except.error e, _ => Except.error e
      | _, Except.error e => Except.error e

/-- The call_tool success-callback parsing: the content member when it
is an array, element-wise; an absent or non-array content member yields
the empty vector. -/
def parseCallToolResult (result : Json) :
    Except String (List ToolResultContent) :=
  match jlookup result ("content") with
  | some (Json.arr xs) => parseToolContents xs
  | _ => Except.ok []

/-- Parsing of one prompt message inside the get_prompt success callback
(client.hpp lines 282 to 301): the role member defaults to user, and the
content member is read ONLY when it is a single JSON object, in which
case one block with its type and text is pushed; an array-shaped content
member is skipped, leaving the content vector empty. -/
def parsePromptMessage (m : Json) : Except String PromptMessage :=
  match jValueStr m ("role") ("user") with
  | Except.error e => Except.error e
  | Except.ok role_str =>
      let role :=
        if role_str = ("assistant") then MessageRole.assistant
        else MessageRole.user
      match jlookup m ("content") with
      | some (Json.obj kvs) =>
          match jValueStr (Json.obj kvs) ("type") ("text"),
                jOptStr (Json.obj kvs) ("text") with
          | Except.ok ty, Except.ok t =>
              Except.ok ⟨role, [⟨ty, t, none, none⟩]⟩
          | Except.error e, _ => Except.error e
          | _, Except.error e => Except.error e
      | _ => Except.ok ⟨role, []⟩

/-- Sequencing of parsePromptMessage over the messages array. -/
def parsePromptMessages : List Json → Except String (List PromptMessage)
  | [] => Except.ok []
  | x :: xs =>
      match parsePromptMessage x, parsePromptMessages xs with
      | Except.ok msg, Except.ok rest => Except.ok (msg :: rest)
      | Except.error e, _ => Except.error e
      | _, Except.error e => Except.error e

/-- The get_prompt success-callback parsing: the messages member when it
is an array, element-wise. -/
def parseGetPromptResult (result : Json) : Except String (List PromptMessage) :=
  match jlookup result ("messages") with
  | some (Json.arr xs) => parsePromptMessages xs
  | _ => Except.ok []

/-- The prompts/get success payload the server emits for handler
messages (server.hpp lines 342 to 350). -/
def promptsGetResultJson (messages : List PromptMessage) : Json :=
  Json.obj [(("messages"), Json.arr (messages.map PromptMessage.to_json))]

/-- Client state: the fields of class Client (client.hpp) the claims
touch; initialized_ and server_info_. -/
structure ClientState where
  initialized : Bool
  server_info : ServerInfo

/-- Client::server_info (client.hpp lines 397 to 402): throws runtime
error when not initialized, otherwise returns the stored server info. -/
def clientServerInfo (st : ClientState) : Except String ServerInfo :=
  if !st.initialized then Except.error ("Client not initialized")
  else Except.ok st.server_info

/-- The initialize success callback (client.hpp lines 112 to 122):
parse the result into server_info_ and set initialized_; a parse
failure is a thrown conversion error escaping the callback. -/
def clientInitializeOnSuccess (st : ClientState) (result : Json) :
    Except String ClientState :=
  match ServerInfo.from_json result with
  | Except.ok si => Except.ok { st with server_info := si, initialized := true }
  | Except.error e => Except.error e

/-- The transport close callback of the client constructor (client.hpp
lines 56 to 58): reset the initialized flag. -/
def clientOnTransportClose (st : ClientState) : ClientState :=
  { st with initialized := false }

/-! ## The parallel fan-out helper (src/include/mcp/client_async.hpp)

AsyncClient::execute_parallel_async (lines 243 to 277) first launches
call_tool for every pair, collecting one future per call, then walks
the futures in input order calling get on each; get re-raises the
failure of the first failed call, aborting the walk.  Each call is
modelled by its eventual outcome; the walk is modelled by a fold that
also counts how many futures had get invoked on them before return. -/

/-- The launch loop: all pairs are issued, in input order; the outcome
of each call is given by the oracle for that pair. -/
def launchAll (calls : List (String × Json))
    (oracle : String → Json → Except String (List ToolResultContent)) :
    List (Except String (List ToolResultContent)) :=
  calls.map (fun c => oracle c.1 c.2)

/-- The collection loop: get on each future in order, stopping at the
first failure, whose error is re-raised. -/
def awaitAll {α : Type} : List (Except String α) → Except String (List α)
  | [] => Except.ok []
  | Except.ok x :: rest =>
      match awaitAll rest with
      | Except.ok xs => Except.ok (x :: xs)
      | Except.error e => Except.error e
  | Except.error e :: _ => Except.error e

/-- How many futures the collection loop invokes get on: every future
up to and including the first failed one. -/
def awaitedCount {α : Type} : List (Except String α) → Nat
  | [] => 0
  | Except.ok _ :: rest => 1 + awaitedCount rest
  | Except.error _ :: _ => 1

/-- execute_parallel_async end to end: launch everything, then collect. -/
def executeParallel (calls : List (String × Json))
    (oracle : String → Json → Except String (List ToolResultContent)) :
    Except String (List (List ToolResultContent)) :=
  awaitAll (launchAll calls oracle)

/-! ## Transports (src/include/mcp/transport/transport.hpp) -/

/-- An event a transport fires on its sinks. -/
inductive TEvent where
  | msg (j : Json) : TEvent
  | errEvt (s : String) : TEvent
  | closed : TEvent

/-- The reader loop body of StdioTransport::start (transport.hpp lines
122 to 136), sequentialized over the whole input stream: skip empty
lines, fire one message per line that parses, fire one error per line
that does not and keep reading, and fire the close sink exactly once
when the input stream ends.  The JSON text parser is abstracted by the
parse argument. -/
def stdioReadLoop (parse : String → Except String Json) :
    List String → List TEvent
  | [] => [TEvent.closed]
  | line :: rest =>
      if line = ("") then stdioReadLoop parse rest
      else
        match parse line with
        | Except.ok j => TEvent.msg j :: stdioReadLoop parse rest
        | Except.error e =>
            TEvent.errEvt (("JSON parse error: ") ++ e)
              :: stdioReadLoop parse rest

/-- The per-line event of the reader, used to state the closed form of
the loop. -/
def stdioLineEvent (parse : String → Except String Json) (line : String) :
    Option TEvent :=
  if line = ("") then none
  else
    match parse line with
    | Except.ok j => some (TEvent.msg j)
    | Except.error e => some (TEvent.errEvt (("JSON parse error: ") ++ e))

/-- A JSON dump, written as the C++ side does through nlohmann dump():
compact, escaped strings in quotes. -/
def escapeChar (c : Char) : String :=
  match c with
  | '"' => ("\\\"")
  | '\\' => ("\\\\")
  | '\n' => ("\\n")
  | '\t' => ("\\t")
  | '\r' => ("\\r")
  | _ => String.singleton c

def escapeString (s : String) : String :=
  String.join (s.toList.map escapeChar)

mutual

def dump : Json → String
  | Json.null => ("null")
  | Json.bool true => ("true")
  | Json.bool false => ("false")
  | Json.num n => toString n
  | Json.str s => ("\"") ++ escapeString s ++ ("\"")
  | Json.arr xs => ("[") ++ dumpList xs ++ ("]")
  | Json.obj kvs => ("\x7b") ++ dumpObj kvs ++ ("\x7d")

def dumpList : List Json → String
  | [] => ("")
  | [x] => dump x
  | x :: y :: xs => dump x ++ (",") ++ dumpList (y :: xs)

def dumpObj : List (String × Json) → String
  | [] => ("")
  | [(k, v)] => ("\"") ++ escapeString k ++ ("\":") ++ dump v
  | (k, v) :: p :: kvs =>
      ("\"") ++ escapeString k ++ ("\":") ++ dump v ++ (",")
        ++ dumpObj (p :: kvs)

end

/-- StdioTransport::send (transport.hpp lines 108 to 115): one write of
the message dump followed by a newline, the write mutex serializing the
writes so the output stream is the plain concatenation. -/
def stdioSend (message : Json) : String :=
  dump message ++ ("\n")

/-- The whole outbound stream for a sequence of sends. -/
def stdioSendAll (messages : List Json) : String :=
  String.join (messages.map stdioSend)

/-- A lifecycle call on a transport. -/
inductive TOp where
  | start : TOp
  | close : TOp

/-- One lifecycle call on StdioTransport (transport.hpp): start is a
no-op when running, close is a no-op when not running; close on a
running transport stops the flag and joins the reader thread, whose
exit fires the close sink exactly once.  The join is sequentialized:
the close event the reader emits on exit is attributed to the close
call that joins it. -/
def stdioStep (running : Bool) : TOp → Bool × List TEvent
  | TOp.start => if running then (true, []) else (true, [])
  | TOp.close => if running then (false, [TEvent.closed]) else (false, [])

/-- One lifecycle call on InMemoryTransport (transport.hpp lines 202 to
236): close on a running transport stops the worker, joins it and then
fires the close sink directly, exactly once; otherwise a no-op. -/
def inMemoryStep (running : Bool) : TOp → Bool × List TEvent
  | TOp.start => if running then (true, []) else (true, [])
  | TOp.close => if running then (false, [TEvent.closed]) else (false, [])

/-- A trace entry: the running flag before the call, the call, the
events it fired, and the running flag after it. -/
structure TraceEntry where
  before : Bool
  op : TOp
  events : List TEvent
  after : Bool

/-- The trace of a sequence of lifecycle calls under a step function. -/
def traceRun (step : Bool → TOp → Bool × List TEvent) :
    Bool → List TOp → List TraceEntry
  | _, [] => []
  | b, op :: ops =>
      let (b2, evs) := step b op
      ⟨b, op, evs, b2⟩ :: traceRun step b2 ops

/-! ## Sample values used by the witnesses -/

/-- A server state with empty registries, not initialized. -/
def baseServer : ServerState :=
  ⟨false, Json.null, ⟨("srv"), ("1.0")⟩, none, ⟨none, none, none, none⟩,
    [], fun _ => none, [], fun _ => none, [], fun _ => none⟩

/-! ## Theorems -/

/-- C1: on the server role the first inbound initialize request marks
initialized, stores the peer capabilities, and is answered with a
success result carrying the server implementation info, the protocol
version literal 2024-11-05 and the advertised capabilities; every
subsequent initialize request is refused with error code -32600 and
leaves the stored state unchanged. -/
theorem initialize_once_then_refused
    (st : ServerState) (id params c : Json)
    (hinit : st.initialized = false)
    (hcaps : jlookup params ("capabilities") = some c) :
    ∃ st2 r,
      serverRespond st id ("initialize") params = some (st2, make_result id r) ∧
      st2.initialized = true ∧
      st2.client_capabilities = c ∧
      jlookup r ("serverInfo") = some st.server_info.to_json ∧
      jlookup r ("protocolVersion") = some (Json.str ("2024-11-05")) ∧
      jlookup r ("capabilities") = some st.capabilities.to_json ∧
      (∀ id2 params2,
        serverRespond st2 id2 ("initialize") params2
          = some (st2,
              make_error id2 ⟨-32600, ("Already initialized"), Json.null⟩)) := by
  have hstep : initializeHandler st params
      = ({ st with client_capabilities := c, initialized := true },
         Outcome.ok (ServerInfo.to_json
           ⟨st.server_info, MCP_PROTOCOL_VERSION, st.capabilities.to_json,
             st.instructions⟩)) := by
    simp [initializeHandler, hinit, hcaps]
  refine ⟨{ st with client_capabilities := c, initialized := true },
    ServerInfo.to_json
      ⟨st.server_info, MCP_PROTOCOL_VERSION, st.capabilities.to_json,
        st.instructions⟩, ?_, rfl, rfl, ?_, ?_, ?_, ?_⟩
  · simp [serverRespond, serverHandle, hstep, dispatchOutcome]
  · simp [ServerInfo.to_json, jlookup, jlookupList]
  · simp [ServerInfo.to_json, jlookup, jlookupList, MCP_PROTOCOL_VERSION]
  · simp [ServerInfo.to_json, jlookup, jlookupList]
  · intro id2 params2
    simp [serverRespond, serverHandle, initializeHandler, dispatchOutcome]

/-- Witness for C1 at a concrete state and request. -/
theorem initialize_once_then_refused_witness :
    baseServer.initialized = false ∧
    jlookup (Json.obj [(("capabilities"), Json.obj [])]) ("capabilities")
      = some (Json.obj []) ∧
    ∃ st2 r,
      serverRespond baseServer (Json.num 1) ("initialize")
          (Json.obj [(("capabilities"), Json.obj [])])
        = some (st2, make_result (Json.num 1) r) ∧
      st2.initialized = true ∧
      st2.client_capabilities = Json.obj [] ∧
      jlookup r ("serverInfo") = some baseServer.server_info.to_json ∧
      jlookup r ("protocolVersion") = some (Json.str ("2024-11-05")) ∧
      jlookup r ("capabilities") = some baseServer.capabilities.to_json ∧
      (∀ id2 params2,
        serverRespond st2 id2 ("initialize") params2
          = some (st2,
              make_error id2 ⟨-32600, ("Already initialized"), Json.null⟩)) :=
  ⟨rfl, rfl,
    initialize_once_then_refused baseServer (Json.num 1)
      (Json.obj [(("capabilities"), Json.obj [])]) (Json.obj []) rfl rfl⟩

/-- C2: every MCP method other than initialize, received while the
server is not initialized, is answered with one error response of code
-32600 and the state is returned unchanged.  The statement holds for
every state with the flag down, whatever handlers its registries hold,
so no registered handler can influence the response: the gate fires
before any registry lookup or handler invocation. -/
theorem not_initialized_gate
    (st : ServerState) (id params : Json) (method : String)
    (hinit : st.initialized = false)
    (hm : method ∈
      [("tools/list"), ("tools/call"), ("prompts/list"), ("prompts/get"),
       ("resources/list"), ("resources/read")]) :
    serverRespond st id method params
      = some (st, make_error id ⟨-32600, ("Not initialized"), Json.null⟩) := by
  simp only [List.mem_cons, List.not_mem_nil, or_false] at hm
  rcases hm with h | h | h | h | h | h <;> subst h <;>
    simp [serverRespond, serverHandle, toolsListHandler, toolsCallHandler,
      promptsListHandler, promptsGetHandler, resourcesListHandler,
      resourcesReadHandler, dispatchOutcome, hinit]

/-- Witness for C2: a tools/list request before initialize is refused
with code -32600. -/
theorem not_initialized_gate_witness :
    baseServer.initialized = false ∧
    (("tools/list") ∈
      [("tools/list"), ("tools/call"), ("prompts/list"), ("prompts/get"),
       ("resources/list"), ("resources/read")]) ∧
    serverRespond baseServer (Json.num 5) ("tools/list") (Json.obj [])
      = some (baseServer,
          make_error (Json.num 5) ⟨-32600, ("Not initialized"), Json.null⟩) :=
  ⟨rfl, by decide,
    not_initialized_gate baseServer (Json.num 5) (Json.obj []) ("tools/list")
      rfl (by decide)⟩

/-- C3: on an initialized server, tools/call answers -32602 when the
params object carries no name member, -32601 when the named tool is not
registered, and otherwise invokes the registered handler on the
arguments member (the empty object when absent): a normal return
becomes one success response carrying the content array, a thrown
declared protocol error surfaces with its original code translated
exactly once, and any other handler failure surfaces as -32603 with a
message carrying the failure description.  When params is not an object
at all, value() throws type_error.306 outside the inner try block and
the dispatcher answers -32603, never -32602. -/
theorem tools_call_behavior
    (st : ServerState) (id params : Json)
    (hinit : st.initialized = true) :
    (isObj params = true → jlookup params ("name") = none →
      serverRespond st id ("tools/call") params
        = some (st, make_error id ⟨-32602, ("Missing tool name"), Json.null⟩))
  ∧ (isObj params = false →
      ∃ m, serverRespond st id ("tools/call") params
        = some (st, make_error id ⟨-32603, m, Json.null⟩))
  ∧ (isObj params = true → jlookup params ("arguments") = none →
      jValueJson params ("arguments") (Json.obj [])
        = Except.ok (Json.obj []))
  ∧ (∀ s, jlookup params ("name") = some (Json.str s) → s ≠ ("") →
      (st.tool_handlers s = none →
        serverRespond st id ("tools/call") params
          = some (st,
              make_error id ⟨-32601, ("Tool not found: ") ++ s, Json.null⟩))
      ∧ (∀ h args, st.tool_handlers s = some h →
          jValueJson params ("arguments") (Json.obj []) = Except.ok args →
          (∀ items, h args = Outcome.ok items →
            serverRespond st id ("tools/call") params
              = some (st, make_result id
                  (Json.obj
                    [(("content"),
                      Json.arr (items.map ToolResultContent.to_json))])))
          ∧ (∀ e, h args = Outcome.rpcErr e →
              serverRespond st id ("tools/call") params
                = some (st, make_error id e))
          ∧ (∀ m, h args = Outcome.exn m →
              serverRespond st id ("tools/call") params
                = some (st, make_error id
                    ⟨-32603, ("Tool execution failed: ") ++ m,
                      Json.null⟩)))) := by
  refine ⟨?_, ?_, ?_, ?_⟩
  · intro hobj hname
    simp [serverRespond, serverHandle, toolsCallHandler, dispatchOutcome,
      jValueStr, hinit, hobj, hname]
  · intro hobj
    refine ⟨("Internal error: ")
      ++ ("type_error.306: cannot use value() with a non-object"), ?_⟩
    simp [serverRespond, serverHandle, toolsCallHandler, dispatchOutcome,
      jValueStr, hinit, hobj]
  · intro hobj hargs
    simp [jValueJson, hobj, hargs]
  · intro s hname hne
    have hobj : isObj params = true := by
      cases params <;> simp_all [jlookup, isObj]
    have hv : jValueStr params ("name") ("") = Except.ok s := by
      simp [jValueStr, hobj, hname, jGetStr]
    refine ⟨?_, ?_⟩
    · intro hnone
      simp [serverRespond, serverHandle, toolsCallHandler, dispatchOutcome,
        hinit, hv, hne, hnone]
    · intro h args hsome hargs
      refine ⟨?_, ?_, ?_⟩ <;> intro x hx <;>
        simp [serverRespond, serverHandle, toolsCallHandler, dispatchOutcome,
          hinit, hv, hne, hsome, hargs, hx]

/-- A server state for the C3 witness: initialized, with one registered
tool handler named add that returns one text block. -/
def c3Server : ServerState :=
  { baseServer with
      initialized := true,
      tool_handlers := fun s =>
        if s = ("add") then
          some (fun _ => Outcome.ok [ToolResultContent.text_content ("42")])
        else none }

/-- Witness for C3: the registered-handler success branch at a concrete
request, every hypothesis discharged by evaluation. -/
theorem tools_call_behavior_witness :
    c3Server.initialized = true ∧
    serverRespond c3Server (Json.num 2) ("tools/call")
        (Json.obj [(("name"), Json.str ("add")),
                   (("arguments"), Json.obj [])])
      = some (c3Server, make_result (Json.num 2)
          (Json.obj
            [(("content"),
              Json.arr
                [ToolResultContent.to_json
                  (ToolResultContent.text_content ("42"))])])) :=
  ⟨rfl,
    ((((tools_call_behavior c3Server (Json.num 2)
        (Json.obj [(("name"), Json.str ("add")),
                   (("arguments"), Json.obj [])]) rfl).2.2.2
      ("add") rfl (by decide)).2
      (fun _ => Outcome.ok [ToolResultContent.text_content ("42")])
      (Json.obj []) rfl rfl).1
      [ToolResultContent.text_content ("42")] rfl)⟩

/-- The collection loop under a cancellation flag that turns true once k
blocks have been collected gathers exactly the first max(k,1) blocks:
the block in flight when the flag is first sampled true is kept, and no
further block is pulled. -/
theorem streamingCollect_cancelAt (k : Nat) (items : List ToolResultContent)
    (n : Nat) :
    streamingCollect (fun m => decide (k ≤ m)) items n
      = items.take (max (k - n) 1) := by
  induction items generalizing n with
  | nil => simp [streamingCollect]
  | cons x xs ih =>
      by_cases hk : k ≤ n + 1
      · have h1 : max (k - n) 1 = 1 := by omega
        simp [streamingCollect, hk, h1]
      · have h3 : max (k - (n + 1)) 1 = k - (n + 1) := by omega
        have h5 : max (k - n) 1 = (k - (n + 1)) + 1 := by omega
        simp only [streamingCollect, decide_eq_true_eq, if_neg hk, ih, h3, h5,
          List.take_succ_cons]

/-- The ten blocks of the C4 counterexample generator. -/
def c4Items : List ToolResultContent :=
  (List.range 10).map (fun i => ToolResultContent.text_content (toString i))

/-- A server state with a registered streaming tool whose ambient
cancellation flag turns true once three blocks are collected
(a cancel notification observed while the adapter iterates). -/
def c4Server : ServerState :=
  { baseServer with
      initialized := true,
      tool_handlers := fun s =>
        if s = ("stream") then
          some (streamingToolHandler (fun _ => c4Items)
            (fun n => decide (3 ≤ n)))
        else none }

/-- Counterexample to C4 as stated: a streaming tool cancelled after
three of ten blocks produces a SUCCESS response carrying the partial
content, not an error response with code -32800.  The wrapped handler
in register_streaming_tool breaks out of its loop on cancellation and
returns the collected blocks normally (server_streaming.hpp lines 96
to 101), so the endpoint emits a result, never a -32800 error. -/
theorem streaming_cancel_counterexample :
    serverRespond c4Server (Json.num 7) ("tools/call")
        (Json.obj [(("name"), Json.str ("stream"))])
      = some (c4Server, make_result (Json.num 7)
          (Json.obj [(("content"),
            Json.arr ((c4Items.take 3).map ToolResultContent.to_json))]))
    ∧ errorCode (make_result (Json.num 7)
        (Json.obj [(("content"),
          Json.arr ((c4Items.take 3).map ToolResultContent.to_json))]))
        ≠ some (-32800)
    ∧ isResult (make_result (Json.num 7)
        (Json.obj [(("content"),
          Json.arr ((c4Items.take 3).map ToolResultContent.to_json))]))
        = true :=
  ⟨rfl, by decide, rfl⟩

/-- C4 amended: for every streaming tool registered through
register_streaming_tool, when cancellation for the in-flight request is
observed after k blocks while the adapter iterates the generator, the
adapter stops pulling further items, and the single response emitted
for the request is a success response whose content array holds exactly
the first max(k,1) yielded blocks; no -32800 error response is emitted. -/
theorem streaming_tool_cancel_success
    (st : ServerState) (id params args : Json) (name : String)
    (gen : Json → List ToolResultContent) (k : Nat)
    (hinit : st.initialized = true)
    (hname : jlookup params ("name") = some (Json.str name))
    (hne : name ≠ (""))
    (hargs : jValueJson params ("arguments") (Json.obj [])
        = Except.ok args)
    (hh : st.tool_handlers name
        = some (streamingToolHandler gen (fun n => decide (k ≤ n)))) :
    serverRespond st id ("tools/call") params
      = some (st, make_result id
          (Json.obj [(("content"),
            Json.arr
              (((gen args).take
                  (max k 1)).map ToolResultContent.to_json))]))
    ∧ errorCode (make_result id
        (Json.obj [(("content"),
          Json.arr
            (((gen args).take
                (max k 1)).map ToolResultContent.to_json))]))
        = none := by
  have hobj : isObj params = true := by
    cases params <;> simp_all [jlookup, isObj]
  have hv : jValueStr params ("name") ("") = Except.ok name := by
    simp [jValueStr, hobj, hname, jGetStr]
  have hcollect :
      streamingCollect (fun m => decide (k ≤ m)) (gen args) 0
        = (gen args).take (max k 1) := by
    simpa using streamingCollect_cancelAt k (gen args) 0
  constructor
  · simp [serverRespond, serverHandle, toolsCallHandler, dispatchOutcome,
      hinit, hv, hne, hargs, hh, streamingToolHandler, hcollect]
  · simp [errorCode, make_result, jlookup, jlookupList]

/-- Witness for the amended C4 theorem: the concrete cancelled
streaming call, hypotheses discharged by evaluation. -/
theorem streaming_tool_cancel_success_witness :
    c4Server.initialized = true ∧
    jlookup (Json.obj [(("name"), Json.str ("stream"))]) ("name")
      = some (Json.str ("stream")) ∧
    (("stream") : String) ≠ ("") ∧
    jValueJson (Json.obj [(("name"), Json.str ("stream"))]) ("arguments")
        (Json.obj []) = Except.ok (Json.obj []) ∧
    c4Server.tool_handlers ("stream")
      = some (streamingToolHandler (fun _ => c4Items)
          (fun n => decide (3 ≤ n))) ∧
    serverRespond c4Server (Json.num 8) ("tools/call")
        (Json.obj [(("name"), Json.str ("stream"))])
      = some (c4Server, make_result (Json.num 8)
          (Json.obj [(("content"),
            Json.arr
              (((c4Items).take (max 3 1)).map ToolResultContent.to_json))])) :=
  ⟨rfl, rfl, by decide, rfl, rfl,
    (streaming_tool_cancel_success c4Server (Json.num 8)
      (Json.obj [(("name"), Json.str ("stream"))]) (Json.obj []) ("stream")
      (fun _ => c4Items) 3 rfl rfl (by decide) rfl rfl).1⟩

/-- One prompt message with a single text block, as a server-side
handler would produce it. -/
def c5Message : PromptMessage :=
  ⟨MessageRole.user, [⟨("text"), some ("hi"), none, none⟩]⟩

/-- Counterexample to C5 as stated: the server emits the content member
of a prompt message as an ARRAY of blocks (PromptMessage::to_json), but
the client parses content only when it is a single OBJECT (client.hpp
line 290, is_object), so a message carrying one block reaches the
success callback with zero blocks, not one. -/
theorem get_prompt_content_counterexample :
    parseGetPromptResult (promptsGetResultJson [c5Message])
      = Except.ok [⟨MessageRole.user, []⟩]
    ∧ c5Message.content.length = 1
    ∧ (⟨MessageRole.user, []⟩ : PromptMessage) ≠ c5Message :=
  ⟨rfl, rfl, by decide⟩

/-- C5 amended: the client parses each prompt message content member as
a single object, while the server emits it as an array; hence for every
prompts/get response built from server-side PromptMessage values the
success callback receives the messages with their roles preserved but
with EMPTY content lists — the n content items of each message are
dropped, whatever n is. -/
theorem get_prompt_drops_array_content (msgs : List PromptMessage) :
    parseGetPromptResult (promptsGetResultJson msgs)
      = Except.ok (msgs.map (fun m => ⟨m.role, []⟩)) := by
  have hone : ∀ m : PromptMessage,
      parsePromptMessage (PromptMessage.to_json m)
        = Except.ok ⟨m.role, []⟩ := by
    intro m
    cases hr : m.role <;>
      simp [parsePromptMessage, PromptMessage.to_json, message_role_to_string,
        jValueStr, isObj, jGetStr, jlookup, jlookupList, hr]
  have hall : ∀ xs : List PromptMessage,
      parsePromptMessages (xs.map PromptMessage.to_json)
        = Except.ok (xs.map (fun m => ⟨m.role, []⟩)) := by
    intro xs
    induction xs with
    | nil => simp [parsePromptMessages]
    | cons y ys ih => simp [parsePromptMessages, hone, ih]
  simp [parseGetPromptResult, promptsGetResultJson, jlookup, jlookupList,
    hall]

/-! ## Round-trip helper lemmas for C6 -/

/-- What from_json reconstructs for a properties member to_json did not
emit: the null value comes back as the empty-object default. -/
def normProps : Json → Json
  | Json.null => Json.obj []
  | p => p

theorem normProps_of_ne_null (p : Json) (h : p ≠ Json.null) :
    normProps p = p := by
  cases p <;> simp_all [normProps]

theorem strList_roundtrip (xs : List String) :
    strListFromJson (xs.map Json.str) = Except.ok xs := by
  induction xs with
  | nil => rfl
  | cons y ys ih => simp [strListFromJson, jGetStr, ih]

theorem strList_roundtrip_cons (y : String) (ys : List String) :
    strListFromJson (Json.str y :: ys.map Json.str) = Except.ok (y :: ys) := by
  simpa using strList_roundtrip (y :: ys)

theorem impl_from_to (i : Implementation) :
    Implementation.from_json i.to_json = Except.ok i := by
  simp [Implementation.from_json, Implementation.to_json, jValueStr, isObj,
    jGetStr, jlookup, jlookupList]

theorem schema_from_to (s : ToolInputSchema) :
    ToolInputSchema.from_json s.to_json
      = Except.ok ⟨s.type, normProps s.properties, s.required⟩ := by
  obtain ⟨ty, props, req⟩ := s
  cases props <;> cases req <;>
    simp [ToolInputSchema.from_json, ToolInputSchema.to_json, normProps,
      jValueStr, jValueJson, isObj, jGetStr, jlookup, jlookupList,
      strList_roundtrip, strList_roundtrip_cons]

theorem tool_from_to (t : Tool) :
    Tool.from_json t.to_json
      = Except.ok
          ⟨t.name, t.description,
            ⟨t.input_schema.type, normProps t.input_schema.properties,
              t.input_schema.required⟩⟩ := by
  obtain ⟨n, d, s⟩ := t
  cases d <;>
    simp [Tool.from_json, Tool.to_json, jValueStr, jValueJson, isObj,
      jOptStr, jGetStr, jlookup, jlookupList, schema_from_to]

theorem promptArgument_from_to (a : PromptArgument) :
    PromptArgument.from_json a.to_json = Except.ok a := by
  obtain ⟨n, d, r⟩ := a
  cases d <;>
    simp [PromptArgument.from_json, PromptArgument.to_json, jValueStr,
      jValueBool, isObj, jOptStr, jGetStr, jGetBool, jlookup, jlookupList]

theorem promptArgs_roundtrip (args : List PromptArgument) :
    promptArgsFromJson (args.map PromptArgument.to_json)
      = Except.ok args := by
  induction args with
  | nil => rfl
  | cons y ys ih => simp [promptArgsFromJson, promptArgument_from_to, ih]

theorem promptArgs_roundtrip_cons (y : PromptArgument)
    (ys : List PromptArgument) :
    promptArgsFromJson (y.to_json :: ys.map PromptArgument.to_json)
      = Except.ok (y :: ys) := by
  simpa using promptArgs_roundtrip (y :: ys)

theorem prompt_from_to (p : Prompt) :
    Prompt.from_json p.to_json = Except.ok p := by
  obtain ⟨n, d, args⟩ := p
  cases d <;> cases args <;>
    simp [Prompt.from_json, Prompt.to_json, jValueStr, isObj, jOptStr,
      jGetStr, jlookup, jlookupList, promptArgs_roundtrip,
      promptArgs_roundtrip_cons]

theorem resource_from_to (r : Resource) :
    Resource.from_json r.to_json = Except.ok r := by
  obtain ⟨u, n, d, m⟩ := r
  cases d <;> cases m <;>
    simp [Resource.from_json, Resource.to_json, jValueStr, isObj, jOptStr,
      jGetStr, jlookup, jlookupList]

theorem serverInfo_from_to (si : ServerInfo) :
    ServerInfo.from_json si.to_json = Except.ok si := by
  obtain ⟨impl, pv, caps, instr⟩ := si
  cases instr <;>
    simp [ServerInfo.from_json, ServerInfo.to_json, jValueStr, jValueJson,
      isObj, jOptStr, jGetStr, jlookup, jlookupList, impl_from_to]

theorem jlookupList_setkList_ne (kvs : List (String × Json))
    (k key : String) (v : Json) (h : k ≠ key) :
    jlookupList (setkList kvs k v) key = jlookupList kvs key := by
  induction kvs with
  | nil => simp [setkList, jlookupList, h]
  | cons p rest ih =>
      obtain ⟨pk, pv⟩ := p
      by_cases hp : pk = k
      · subst hp
        simp [setkList, jlookupList, h, ih]
      · simp [setkList, jlookupList, hp, ih]

theorem jlookup_setk_ne (j : Json) (k key : String) (v : Json)
    (h : k ≠ key) :
    jlookup (setk j k v) key = jlookup j key := by
  cases j <;> simp [setk, jlookup, jlookupList_setkList_ne _ _ _ _ h]

theorem isObj_setk (j : Json) (k : String) (v : Json) :
    isObj (setk j k v) = isObj j := by
  cases j <;> rfl

theorem impl_ignores_unknown (i : Implementation) (k : String) (v : Json)
    (h : k ∉ [("name"), ("version")]) :
    Implementation.from_json (setk i.to_json k v)
      = Implementation.from_json i.to_json := by
  have h1 : k ≠ ("name") := by simp_all
  have h2 : k ≠ ("version") := by simp_all
  simp only [Implementation.from_json, jValueStr, isObj_setk i.to_json k v,
    jlookup_setk_ne i.to_json k ("name") v h1,
    jlookup_setk_ne i.to_json k ("version") v h2]

theorem schema_ignores_unknown (s : ToolInputSchema) (k : String) (v : Json)
    (h : k ∉ [("type"), ("properties"), ("required")]) :
    ToolInputSchema.from_json (setk s.to_json k v)
      = ToolInputSchema.from_json s.to_json := by
  have h1 : k ≠ ("type") := by simp_all
  have h2 : k ≠ ("properties") := by simp_all
  have h3 : k ≠ ("required") := by simp_all
  simp only [ToolInputSchema.from_json, jValueStr, jValueJson,
    isObj_setk s.to_json k v,
    jlookup_setk_ne s.to_json k ("type") v h1,
    jlookup_setk_ne s.to_json k ("properties") v h2,
    jlookup_setk_ne s.to_json k ("required") v h3]

theorem tool_ignores_unknown (t : Tool) (k : String) (v : Json)
    (h : k ∉ [("name"), ("description"), ("inputSchema")]) :
    Tool.from_json (setk t.to_json k v) = Tool.from_json t.to_json := by
  have h1 : k ≠ ("name") := by simp_all
  have h2 : k ≠ ("description") := by simp_all
  have h3 : k ≠ ("inputSchema") := by simp_all
  simp only [Tool.from_json, jValueStr, jValueJson, jOptStr,
    isObj_setk t.to_json k v,
    jlookup_setk_ne t.to_json k ("name") v h1,
    jlookup_setk_ne t.to_json k ("description") v h2,
    jlookup_setk_ne t.to_json k ("inputSchema") v h3]

theorem promptArgument_ignores_unknown (a : PromptArgument) (k : String)
    (v : Json) (h : k ∉ [("name"), ("description"), ("required")]) :
    PromptArgument.from_json (setk a.to_json k v)
      = PromptArgument.from_json a.to_json := by
  have h1 : k ≠ ("name") := by simp_all
  have h2 : k ≠ ("description") := by simp_all
  have h3 : k ≠ ("required") := by simp_all
  simp only [PromptArgument.from_json, jValueStr, jValueBool, jOptStr,
    isObj_setk a.to_json k v,
    jlookup_setk_ne a.to_json k ("name") v h1,
    jlookup_setk_ne a.to_json k ("description") v h2,
    jlookup_setk_ne a.to_json k ("required") v h3]

theorem prompt_ignores_unknown (p : Prompt) (k : String) (v : Json)
    (h : k ∉ [("name"), ("description"), ("arguments")]) :
    Prompt.from_json (setk p.to_json k v) = Prompt.from_json p.to_json := by
  have h1 : k ≠ ("name") := by simp_all
  have h2 : k ≠ ("description") := by simp_all
  have h3 : k ≠ ("arguments") := by simp_all
  simp only [Prompt.from_json, jValueStr, jOptStr, isObj_setk p.to_json k v,
    jlookup_setk_ne p.to_json k ("name") v h1,
    jlookup_setk_ne p.to_json k ("description") v h2,
    jlookup_setk_ne p.to_json k ("arguments") v h3]

theorem resource_ignores_unknown (r : Resource) (k : String) (v : Json)
    (h : k ∉ [("uri"), ("name"), ("description"), ("mimeType")]) :
    Resource.from_json (setk r.to_json k v)
      = Resource.from_json r.to_json := by
  have h1 : k ≠ ("uri") := by simp_all
  have h2 : k ≠ ("name") := by simp_all
  have h3 : k ≠ ("description") := by simp_all
  have h4 : k ≠ ("mimeType") := by simp_all
  simp only [Resource.from_json, jValueStr, jOptStr,
    isObj_setk r.to_json k v,
    jlookup_setk_ne r.to_json k ("uri") v h1,
    jlookup_setk_ne r.to_json k ("name") v h2,
    jlookup_setk_ne r.to_json k ("description") v h3,
    jlookup_setk_ne r.to_json k ("mimeType") v h4]

theorem serverInfo_ignores_unknown (si : ServerInfo) (k : String) (v : Json)
    (h : k ∉ [("protocolVersion"), ("capabilities"), ("serverInfo"),
      ("instructions")]) :
    ServerInfo.from_json (setk si.to_json k v)
      = ServerInfo.from_json si.to_json := by
  have h1 : k ≠ ("protocolVersion") := by simp_all
  have h2 : k ≠ ("capabilities") := by simp_all
  have h3 : k ≠ ("serverInfo") := by simp_all
  have h4 : k ≠ ("instructions") := by simp_all
  simp only [ServerInfo.from_json, jValueStr, jValueJson, jOptStr,
    isObj_setk si.to_json k v,
    jlookup_setk_ne si.to_json k ("protocolVersion") v h1,
    jlookup_setk_ne si.to_json k ("capabilities") v h2,
    jlookup_setk_ne si.to_json k ("serverInfo") v h3,
    jlookup_setk_ne si.to_json k ("instructions") v h4]

/-- C6: for every protocol data type with both conversions
(Implementation, ToolInputSchema, Tool, PromptArgument, Prompt,
Resource, ServerInfo), from_json inverts to_json exactly on every field
to_json emits (for ToolInputSchema the properties member is emitted only
when not null, so only that case constrains it); from_json succeeds on
an object with every optional member missing; and an unknown extra
member changes nothing about the parse. -/
theorem json_roundtrip_laws :
    (∀ i : Implementation, Implementation.from_json i.to_json = Except.ok i)
  ∧ (∀ s : ToolInputSchema, ∃ s2,
      ToolInputSchema.from_json s.to_json = Except.ok s2 ∧
      s2.type = s.type ∧ s2.required = s.required ∧
      (s.properties ≠ Json.null → s2.properties = s.properties))
  ∧ (∀ t : Tool, ∃ t2,
      Tool.from_json t.to_json = Except.ok t2 ∧
      t2.name = t.name ∧ t2.description = t.description ∧
      t2.input_schema.type = t.input_schema.type ∧
      t2.input_schema.required = t.input_schema.required ∧
      (t.input_schema.properties ≠ Json.null →
        t2.input_schema.properties = t.input_schema.properties))
  ∧ (∀ a : PromptArgument, PromptArgument.from_json a.to_json = Except.ok a)
  ∧ (∀ p : Prompt, Prompt.from_json p.to_json = Except.ok p)
  ∧ (∀ r : Resource, Resource.from_json r.to_json = Except.ok r)
  ∧ (∀ si : ServerInfo, ServerInfo.from_json si.to_json = Except.ok si)
  ∧ (Implementation.from_json (Json.obj []) = Except.ok ⟨(""), ("")⟩ ∧
     ToolInputSchema.from_json (Json.obj [])
       = Except.ok ⟨("object"), Json.obj [], []⟩ ∧
     Tool.from_json (Json.obj [])
       = Except.ok ⟨(""), none, ⟨("object"), Json.obj [], []⟩⟩ ∧
     PromptArgument.from_json (Json.obj []) = Except.ok ⟨(""), none, false⟩ ∧
     Prompt.from_json (Json.obj []) = Except.ok ⟨(""), none, []⟩ ∧
     Resource.from_json (Json.obj []) = Except.ok ⟨(""), (""), none, none⟩ ∧
     ServerInfo.from_json (Json.obj [])
       = Except.ok ⟨⟨(""), ("")⟩, (""), Json.obj [], none⟩)
  ∧ (∀ i : Implementation, ∀ k v, k ∉ [("name"), ("version")] →
      Implementation.from_json (setk i.to_json k v)
        = Implementation.from_json i.to_json)
  ∧ (∀ s : ToolInputSchema, ∀ k v,
      k ∉ [("type"), ("properties"), ("required")] →
      ToolInputSchema.from_json (setk s.to_json k v)
        = ToolInputSchema.from_json s.to_json)
  ∧ (∀ t : Tool, ∀ k v, k ∉ [("name"), ("description"), ("inputSchema")] →
      Tool.from_json (setk t.to_json k v) = Tool.from_json t.to_json)
  ∧ (∀ a : PromptArgument, ∀ k v,
      k ∉ [("name"), ("description"), ("required")] →
      PromptArgument.from_json (setk a.to_json k v)
        = PromptArgument.from_json a.to_json)
  ∧ (∀ p : Prompt, ∀ k v, k ∉ [("name"), ("description"), ("arguments")] →
      Prompt.from_json (setk p.to_json k v) = Prompt.from_json p.to_json)
  ∧ (∀ r : Resource, ∀ k v,
      k ∉ [("uri"), ("name"), ("description"), ("mimeType")] →
      Resource.from_json (setk r.to_json k v) = Resource.from_json r.to_json)
  ∧ (∀ si : ServerInfo, ∀ k v,
      k ∉ [("protocolVersion"), ("capabilities"), ("serverInfo"),
        ("instructions")] →
      ServerInfo.from_json (setk si.to_json k v)
        = ServerInfo.from_json si.to_json) := by
  refine ⟨impl_from_to, ?_, ?_, promptArgument_from_to, prompt_from_to,
    resource_from_to, serverInfo_from_to,
    ⟨rfl, rfl, rfl, rfl, rfl, rfl, rfl⟩,
    impl_ignores_unknown, schema_ignores_unknown, tool_ignores_unknown,
    promptArgument_ignores_unknown, prompt_ignores_unknown,
    resource_ignores_unknown, serverInfo_ignores_unknown⟩
  · intro s
    exact ⟨⟨s.type, normProps s.properties, s.required⟩, schema_from_to s,
      rfl, rfl, fun hp => normProps_of_ne_null s.properties hp⟩
  · intro t
    exact ⟨⟨t.name, t.description,
        ⟨t.input_schema.type, normProps t.input_schema.properties,
          t.input_schema.required⟩⟩, tool_from_to t,
      rfl, rfl, rfl, rfl,
      fun hp => normProps_of_ne_null t.input_schema.properties hp⟩

/-- Witness for C6: the round trip and the unknown-field tolerance at
concrete values, the key-freshness hypothesis settled by evaluation. -/
theorem json_roundtrip_laws_witness :
    Implementation.from_json (Implementation.to_json ⟨("a"), ("b")⟩)
      = Except.ok ⟨("a"), ("b")⟩ ∧
    (("x-extra") ∉ [("name"), ("version")]) ∧
    Implementation.from_json
        (setk (Implementation.to_json ⟨("a"), ("b")⟩) ("x-extra") Json.null)
      = Implementation.from_json (Implementation.to_json ⟨("a"), ("b")⟩) :=
  ⟨json_roundtrip_laws.1 ⟨("a"), ("b")⟩, by decide,
    (json_roundtrip_laws.2.2.2.2.2.2.2.2.1) ⟨("a"), ("b")⟩ ("x-extra")
      Json.null (by decide)⟩

/-- The two concrete calls of the C7 counterexample. -/
def c7Calls : List (String × Json) := [(("a"), Json.null), (("b"), Json.null)]

/-- The C7 counterexample oracle: the first call fails, the second
succeeds. -/
def c7Oracle : String → Json → Except String (List ToolResultContent) :=
  fun s _ => if s = ("a") then Except.error ("boom") else Except.ok []

/-- Counterexample to C7 as stated: when a call fails,
execute_parallel_async raises that failure after invoking get on the
futures up to and including the first failed one only; with two calls
whose first fails, exactly one future is awaited, so the remaining
in-flight call is NOT awaited before the helper returns.  In the source
(client_async.hpp lines 272 to 274) the loop over futures aborts at the
first get that throws and the later futures are destroyed without get,
and a promise-backed future destructor does not block. -/
theorem execute_parallel_counterexample :
    executeParallel c7Calls c7Oracle = Except.error ("boom")
    ∧ awaitedCount (launchAll c7Calls c7Oracle) = 1
    ∧ c7Calls.length = 2 :=
  ⟨rfl, rfl, rfl⟩

/-- C7 amended: execute_parallel_async launches all N calls; when every
call succeeds it resolves with the N result vectors in input order;
when a call fails it raises the failure of the first failing call in
input order, after awaiting only the futures up to and including that
call — later in-flight calls are not awaited before returning. -/
theorem execute_parallel_behavior
    (calls : List (String × Json))
    (oracle : String → Json → Except String (List ToolResultContent)) :
    (launchAll calls oracle).length = calls.length
  ∧ (∀ f : String × Json → List ToolResultContent,
      (∀ c ∈ calls, oracle c.1 c.2 = Except.ok (f c)) →
      executeParallel calls oracle = Except.ok (calls.map f))
  ∧ (∀ pre c post e, calls = pre ++ c :: post →
      (∀ c2 ∈ pre, ∃ r, oracle c2.1 c2.2 = Except.ok r) →
      oracle c.1 c.2 = Except.error e →
      executeParallel calls oracle = Except.error e ∧
      awaitedCount (launchAll calls oracle) = pre.length + 1) := by
  refine ⟨by simp [launchAll], ?_, ?_⟩
  · intro f hf
    induction calls with
    | nil => rfl
    | cons c cs ih =>
        have hc := hf c (List.mem_cons_self c cs)
        have hrest : ∀ c2 ∈ cs, oracle c2.1 c2.2 = Except.ok (f c2) :=
          fun c2 hc2 => hf c2 (List.mem_cons_of_mem c hc2)
        have ih2 := ih hrest
        simp only [executeParallel, launchAll] at ih2
        simp [executeParallel, launchAll, awaitAll, hc, ih2]
  · intro pre c post e hcalls hpre herr
    subst hcalls
    induction pre with
    | nil => simp [executeParallel, launchAll, awaitAll, awaitedCount, herr]
    | cons p ps ih =>
        obtain ⟨r, hr⟩ := p.2 |> fun _ => hpre p (List.mem_cons_self p ps)
        have hps : ∀ c2 ∈ ps, ∃ r2, oracle c2.1 c2.2 = Except.ok r2 :=
          fun c2 hc2 => hpre c2 (List.mem_cons_of_mem p hc2)
        have := ih hps
        simp [executeParallel, launchAll, awaitAll, awaitedCount, hr] at this ⊢
        constructor
        · simp [this.1]
        · omega

/-- An oracle for the C7 witness on which every call succeeds. -/
def c7OkOracle : String → Json → Except String (List ToolResultContent) :=
  fun _ _ => Except.ok []

/-- Witness for the amended C7 theorem: two successful calls resolve in
input order, hypotheses settled by evaluation. -/
theorem execute_parallel_behavior_witness :
    (∀ c ∈ c7Calls, c7OkOracle c.1 c.2
        = Except.ok ((fun _ => ([] : List ToolResultContent)) c)) ∧
    executeParallel c7Calls c7OkOracle
      = Except.ok (c7Calls.map (fun _ => [])) :=
  ⟨fun _ _ => rfl,
    (execute_parallel_behavior c7Calls c7OkOracle).2.1
      (fun _ => []) (fun _ _ => rfl)⟩

/-- The per-step contract shared by the close paths of the two
transports: close on a running transport stops it and fires the close
sink exactly once, close on a stopped transport is a no-op, start
leaves it running and fires nothing. -/
theorem traceRun_close_once
    (step : Bool → TOp → Bool × List TEvent)
    (hclose : ∀ b, step b TOp.close
      = (false, if b then [TEvent.closed] else []))
    (hstart : ∀ b, step b TOp.start = (true, []))
    (b : Bool) (ops : List TOp) (entry : TraceEntry)
    (hmem : entry ∈ traceRun step b ops) :
    (entry.op = TOp.close →
      entry.events = (if entry.before then [TEvent.closed] else []) ∧
      entry.after = false)
    ∧ (entry.op = TOp.start → entry.events = [] ∧ entry.after = true) := by
  induction ops generalizing b with
  | nil => simp [traceRun] at hmem
  | cons op rest ih =>
      cases op with
      | start =>
          rw [traceRun, hstart] at hmem
          rcases List.mem_cons.mp hmem with h | h
          · subst h
            exact ⟨fun hc => by simp at hc, fun _ => ⟨rfl, rfl⟩⟩
          · exact ih true h
      | close =>
          rw [traceRun, hclose] at hmem
          rcases List.mem_cons.mp hmem with h | h
          · subst h
            exact ⟨fun _ => ⟨rfl, rfl⟩, fun hs => by simp at hs⟩
          · exact ih false h

/-- C8: for both reference transports, over any sequence of start and
close calls, a close call on a started transport fires the close sink
exactly once and leaves is_open false, a close call on a stopped
transport fires nothing (idempotent no-op), and a start call never
fires the close sink. -/
theorem transport_close_fires_once
    (b : Bool) (ops : List TOp) (entry : TraceEntry) :
    (entry ∈ traceRun stdioStep b ops →
      (entry.op = TOp.close →
        entry.events = (if entry.before then [TEvent.closed] else []) ∧
        entry.after = false)
      ∧ (entry.op = TOp.start → entry.events = [] ∧ entry.after = true))
    ∧ (entry ∈ traceRun inMemoryStep b ops →
      (entry.op = TOp.close →
        entry.events = (if entry.before then [TEvent.closed] else []) ∧
        entry.after = false)
      ∧ (entry.op = TOp.start → entry.events = [] ∧ entry.after = true)) :=
  ⟨traceRun_close_once stdioStep
      (fun b2 => by cases b2 <;> rfl) (fun b2 => by cases b2 <;> rfl) b ops
      entry,
   traceRun_close_once inMemoryStep
      (fun b2 => by cases b2 <;> rfl) (fun b2 => by cases b2 <;> rfl) b ops
      entry⟩

/-- Witness for C8: the close call of the trace start-close-close on a
stopped transport fires the close sink exactly once and the second
close fires nothing. -/
theorem transport_close_fires_once_witness :
    ((⟨true, TOp.close, [TEvent.closed], false⟩ : TraceEntry)
        ∈ traceRun stdioStep false [TOp.start, TOp.close, TOp.close]) ∧
    ((⟨true, TOp.close, [TEvent.closed], false⟩ : TraceEntry).events
        = (if (true : Bool) then [TEvent.closed] else []) ∧
      (⟨true, TOp.close, [TEvent.closed], false⟩ : TraceEntry).after
        = false) :=
  ⟨List.Mem.tail _ (List.Mem.head _),
    ((transport_close_fires_once false [TOp.start, TOp.close, TOp.close]
        ⟨true, TOp.close, [TEvent.closed], false⟩).1
      (List.Mem.tail _ (List.Mem.head _))).1 rfl⟩

/-- The message payload of a transport event, when it is a message. -/
def msgOf : TEvent → Option Json
  | TEvent.msg j => some j
  | _ => none

/-- C9: the stdio line transport delivers, over the whole inbound
stream, exactly one event per non-empty line — the parsed message for a
line that parses, an error event (and reading continues) for a line
that does not — skips empty lines, and fires the close sink exactly
once, at end of input and never earlier; the message events are exactly
the parses of the non-empty well-formed lines, in order.  Outbound,
the stream is the concatenation of each message dump followed by a
newline, the write lock making each send one contiguous write. -/
theorem stdio_line_transport
    (parse : String → Except String Json) (lines : List String)
    (messages : List Json) :
    stdioReadLoop parse lines
      = (lines.filterMap (stdioLineEvent parse)) ++ [TEvent.closed]
  ∧ TEvent.closed ∉ lines.filterMap (stdioLineEvent parse)
  ∧ (lines.filterMap (stdioLineEvent parse)).filterMap msgOf
      = (lines.filter (fun l => l ≠ (""))).filterMap
          (fun l => (parse l).toOption)
  ∧ stdioSendAll messages
      = String.join (messages.map (fun m => dump m ++ ("\n"))) := by
  refine ⟨?_, ?_, ?_, rfl⟩
  · induction lines with
    | nil => rfl
    | cons l rest ih =>
        by_cases hl : l = ("")
        · simp [stdioReadLoop, stdioLineEvent, hl, ih]
        · cases hp : parse l <;>
            simp [stdioReadLoop, stdioLineEvent, hl, hp, ih]
  · intro hmem
    rcases List.mem_filterMap.mp hmem with ⟨l, _, hev⟩
    by_cases hl : l = ("")
    · simp [stdioLineEvent, hl] at hev
    · cases hp : parse l <;> simp [stdioLineEvent, hl, hp] at hev
  · induction lines with
    | nil => rfl
    | cons l rest ih =>
        by_cases hl : l = ("")
        · simp [stdioLineEvent, hl, ih]
        · cases hp : parse l <;>
            simp [stdioLineEvent, msgOf, hl, hp, ih, Except.toOption]

/-- C10: Client::server_info throws (rather than returning a default
value) while the client is not initialized — before initialize
completes, and again after the transport close callback resets the
flag — and after a successful initialize it returns exactly the
ServerInfo parsed from the initialize response. -/
theorem client_server_info_access :
    (∀ st : ClientState, st.initialized = false →
      clientServerInfo st = Except.error ("Client not initialized"))
  ∧ (∀ (st : ClientState) (r : Json) (si : ServerInfo),
      ServerInfo.from_json r = Except.ok si →
      ∃ st2, clientInitializeOnSuccess st r = Except.ok st2 ∧
        st2.initialized = true ∧
        clientServerInfo st2 = Except.ok si)
  ∧ (∀ st : ClientState,
      clientServerInfo (clientOnTransportClose st)
        = Except.error ("Client not initialized")) := by
  refine ⟨?_, ?_, ?_⟩
  · intro st h
    simp [clientServerInfo, h]
  · intro st r si h
    exact ⟨{ st with server_info := si, initialized := true },
      by simp [clientInitializeOnSuccess, h], rfl,
      by simp [clientServerInfo]⟩
  · intro st
    simp [clientServerInfo, clientOnTransportClose]

/-- Witness for C10 at a concrete client state and initialize
response. -/
theorem client_server_info_access_witness :
    ((⟨false, ⟨⟨(""), ("")⟩, (""), Json.obj [], none⟩⟩ : ClientState).initialized
        = false ∧
      clientServerInfo ⟨false, ⟨⟨(""), ("")⟩, (""), Json.obj [], none⟩⟩
        = Except.error ("Client not initialized")) ∧
    (ServerInfo.from_json (Json.obj [])
        = Except.ok ⟨⟨(""), ("")⟩, (""), Json.obj [], none⟩ ∧
      ∃ st2,
        clientInitializeOnSuccess
            ⟨false, ⟨⟨(""), ("")⟩, (""), Json.obj [], none⟩⟩ (Json.obj [])
          = Except.ok st2 ∧
        st2.initialized = true ∧
        clientServerInfo st2
          = Except.ok ⟨⟨(""), ("")⟩, (""), Json.obj [], none⟩) :=
  ⟨⟨rfl, client_server_info_access.1
      ⟨false, ⟨⟨(""), ("")⟩, (""), Json.obj [], none⟩⟩ rfl⟩,
   ⟨rfl, client_server_info_access.2.1
      ⟨false, ⟨⟨(""), ("")⟩, (""), Json.obj [], none⟩⟩ (Json.obj [])
      ⟨⟨(""), ("")⟩, (""), Json.obj [], none⟩ rfl⟩⟩

end MCP



